import Mathlib

/-!
Shallow embedding of the awless AWS driver action layer
(`aws/driver/driver_funcs.go`): parameter maps, dry-run handlers, the
convergence checker, the fake dry-run identifier generator and related
helpers, together with theorems about their behaviour.

Modelling conventions:
- Go `map[string]interface{}` parameter maps become association lists of
  tagged values (`PVal`); `nil` for a missing key is `Option.none`.
- Provider calls are oracles passed as explicit function arguments; an
  `awserr.Error` (a classified AWS error with a code) and a generic Go
  error are the two constructors of `ProviderErr`.
- `(interface{}, error)` results of driver actions become `GoResult`:
  either `ok` with an optional returned identifier, or `err` with the
  message.
- `rand.Intn` is determinized by an explicit seed argument, keeping its
  range contract.
-/

namespace Awless

/-- Untyped values of an action parameter map (`map[string]interface{}`
restricted to the shapes the driver functions inspect: Go strings, ints
and string slices). -/
inductive PVal where
  | str (s : String)
  | int (n : Int)
  | strList (l : List String)
deriving DecidableEq

/-- An action parameter map, as an association list (first match wins). -/
abbrev Params := List (String × PVal)

/-- Map lookup `params[key]`; a missing key (Go `nil`) is `none`. -/
def getParam : Params → String → Option PVal
  | [], _ => none
  | (k, v) :: rest, key => if k = key then some v else getParam rest key

/-- Models `fmt.Sprint` on a parameter value: `fmt.Sprint(nil)` prints
`<nil>`, slices print space-separated inside brackets. -/
def goSprint : Option PVal → String
  | none => "<nil>"
  | some (PVal.str s) => s
  | some (PVal.int n) => toString n
  | some (PVal.strList l) => "[" ++ String.intercalate " " l ++ "]"

/-- Does `l` contain `sub` as a contiguous sublist (helper for the model of
`strings.Contains`). -/
def listContainsSub (sub : List Char) : List Char → Bool
  | [] => List.isPrefixOf sub []
  | c :: t => List.isPrefixOf sub (c :: t) || listContainsSub sub t

/-- Models `strings.Contains(s, sub)`. -/
def goContains (s sub : String) : Bool := listContainsSub sub.data s.data

/-- Models `strings.HasSuffix(s, suffix)`. -/
def goHasSuffix (s suffix : String) : Bool := List.isSuffixOf suffix.data s.data

/-- An error returned by a provider call: either an `awserr.Error` carrying
a classified code, or a generic Go error. -/
inductive ProviderErr where
  | aws (code msg : String)
  | plain (msg : String)
deriving DecidableEq

/-- Models `err.Error()`: `awserr` messages render as `code: msg`. -/
def ProviderErr.message : ProviderErr → String
  | ProviderErr.aws code msg => code ++ ": " ++ msg
  | ProviderErr.plain msg => msg

/-- The synthetic state used by the convergence checkers for an absent
resource (constant `notFoundState` in the source). -/
def notFoundState : String := "not-found"

/-- Modelled from the spec: the provider-specific classified code meaning
"simulate only, this would have succeeded" (constant `dryRunOperation` of
the driver package, declared outside the embedded source file). -/
def dryRunOperation : String := "DryRunOperation"

/-- Modelled from the spec: the provider-specific "resource not found" code
fragment, suffix-matched against classified error codes (constant
`notFound` of the driver package, declared outside the embedded source
file). -/
def notFound : String := "NotFound"

/-- Result of a driver action, modelling Go `(interface{}, error)`:
`ok v` is a nil error with optional returned identifier `v`; `err m` is a
non-nil error with message `m`. -/
inductive GoResult where
  | ok (val : Option String)
  | err (msg : String)
deriving DecidableEq

/-- Modelled from the spec: resource-type tag constant `cloud.Instance`
(cloud package, outside the embedded source file). -/
def cloudInstance : String := "instance"

/-- Modelled from the spec: resource-type tag constant `cloud.Subnet`. -/
def cloudSubnet : String := "subnet"

/-- Modelled from the spec: resource-type tag constant `cloud.Vpc`. -/
def cloudVpc : String := "vpc"

/-- Modelled from the spec: resource-type tag constant `cloud.Volume`. -/
def cloudVolume : String := "volume"

/-- Modelled from the spec: resource-type tag constant
`cloud.SecurityGroup`. -/
def cloudSecurityGroup : String := "securitygroup"

/-- Modelled from the spec: resource-type tag constant
`cloud.InternetGateway`. -/
def cloudInternetGateway : String := "internetgateway"

/-- The six resource-type tags that `fakeDryRunId` recognizes. -/
def knownResourceTags : List String :=
  [cloudInstance, cloudSubnet, cloudVpc, cloudVolume, cloudSecurityGroup,
    cloudInternetGateway]

/-- Models the contract of `rand.Intn n` (a value in `[0, n)`),
determinized by an explicit seed. -/
def randIntn (seed n : Nat) : Nat := seed % n

/-- `fakeDryRunId` from the source: a type-specific prefix followed by a
random decimal suffix drawn once via `rand.Intn(1e6)`. -/
def fakeDryRunId (entity : String) (seed : Nat) : String :=
  if entity = cloudInstance then "i-" ++ toString (randIntn seed 1000000)
  else if entity = cloudSubnet then "subnet-" ++ toString (randIntn seed 1000000)
  else if entity = cloudVpc then "vpc-" ++ toString (randIntn seed 1000000)
  else if entity = cloudVolume then "vol-" ++ toString (randIntn seed 1000000)
  else if entity = cloudSecurityGroup then "sg-" ++ toString (randIntn seed 1000000)
  else if entity = cloudInternetGateway then "igw-" ++ toString (randIntn seed 1000000)
  else "dryrunid-" ++ toString (randIntn seed 1000000)

/-- `removeString` from the source: the Go loop appending every element of
`arr` different from `s` to a fresh slice. -/
def removeString (arr : List String) (s : String) : List String :=
  arr.foldl (fun out e => if e ≠ s then out ++ [e] else out) []

/-- The `ec2.ModifyInstanceAttributeInput` request fields that
`Detach_Securitygroup` populates through its setters. -/
structure ModifyInstanceAttributeInput where
  instanceId : String
  groups : List String
deriving DecidableEq

/-- `Ec2Driver.Detach_Securitygroup` up to the point where the populated
request is handed to the provider. `fetchInstanceSecurityGroups` is the
describe-call oracle. The `driverCall.execute` orchestrator is declared
outside the embedded source file; modelled from the spec: it binds the
setter descriptors into the request object and invokes the provider, so we
return the populated request that is sent. -/
def Detach_Securitygroup (params : Params)
    (fetchInstanceSecurityGroups : String → Except String (List String)) :
    Except String ModifyInstanceAttributeInput :=
  match getParam params "instance" with
  | some (PVal.str inst) =>
    match fetchInstanceSecurityGroups inst with
    | Except.error e =>
      Except.error ("fetching securitygroups for instance " ++ inst ++ ": " ++ e)
    | Except.ok groups =>
      let cleaned := removeString groups (goSprint (getParam params "id"))
      Except.ok { instanceId := inst, groups := cleaned }
  | _ => Except.error "missing instance param"

theorem foldl_remove_eq_filter (s : String) (arr : List String) :
    ∀ acc : List String,
      arr.foldl (fun out e => if e ≠ s then out ++ [e] else out) acc
        = acc ++ arr.filter (fun e => decide (e ≠ s)) := by
  induction arr with
  | nil => intro acc; simp
  | cons e rest ih =>
    intro acc
    rw [List.foldl_cons, List.filter_cons]
    show List.foldl _ (if e ≠ s then acc ++ [e] else acc) rest = _
    by_cases he : e = s
    · rw [if_neg (fun hne => hne he), ih acc]
      simp [he]
    · rw [if_pos he, ih (acc ++ [e])]
      simp [he, List.append_assoc]

theorem removeString_eq_filter (arr : List String) (s : String) :
    removeString arr s = arr.filter (fun e => decide (e ≠ s)) := by
  unfold removeString
  simpa using foldl_remove_eq_filter s arr []

/-- Claim C10: `removeString arr s` returns exactly the elements of `arr`
not equal to `s`, in their original relative order, and consequently the
Groups list that `Detach_Securitygroup` sends to the provider never
contains the detached securitygroup id. -/
theorem c10_removeString_exact_filter :
    (∀ (arr : List String) (s : String),
      removeString arr s = arr.filter (fun e => decide (e ≠ s)))
    ∧ (∀ (params : Params) (fetch : String → Except String (List String))
        (input : ModifyInstanceAttributeInput),
        Detach_Securitygroup params fetch = Except.ok input →
        goSprint (getParam params "id") ∉ input.groups) := by
  refine ⟨removeString_eq_filter, ?_⟩
  intro params fetch input h
  unfold Detach_Securitygroup at h
  split at h
  · split at h
    · cases h
    · injection h with h
      subst h
      intro hmem
      simp only [removeString_eq_filter] at hmem
      simp [List.mem_filter] at hmem
  · cases h

/-- Concrete parameter map used by the C10 witness. -/
def demoDetachParams : Params :=
  [("instance", PVal.str "i-1"), ("id", PVal.str "sg-1")]

/-- Witness for C10: detaching `sg-1` from an instance whose fetched
groups are `[sg-1, sg-2]` sends a Groups list without `sg-1`. -/
theorem c10_removeString_exact_filter_witness :
    goSprint (getParam demoDetachParams "id") ∉
      (ModifyInstanceAttributeInput.mk "i-1"
        (removeString ["sg-1", "sg-2"] "sg-1")).groups :=
  c10_removeString_exact_filter.2 demoDetachParams
    (fun _ => Except.ok ["sg-1", "sg-2"]) _ rfl

theorem append_ne_empty_left (a b : String) (h : a.length ≠ 0) :
    a ++ b ≠ "" := by
  intro hab
  have hl : a.length + b.length = ("" : String).length := by
    rw [← String.length_append, hab]
  simp only [String.length] at hl
  simp at hl
  omega

theorem fakeDryRunId_ne_empty (entity : String) (seed : Nat) :
    fakeDryRunId entity seed ≠ "" := by
  unfold fakeDryRunId
  repeat' split
  all_goals exact append_ne_empty_left _ _ (by decide)

/-- Claim C7: for every resource-type tag the fake-identifier generator
returns a non-empty string made of a type-specific prefix followed by a
bounded random decimal suffix in `[0, 10^6)`, with prefix `dryrunid-` for
any unrecognized tag. -/
theorem c7_fakeDryRunId_shape :
    (∀ (entity : String) (seed : Nat),
      (∃ p, p ∈ ["i-", "subnet-", "vpc-", "vol-", "sg-", "igw-", "dryrunid-"]
        ∧ fakeDryRunId entity seed = p ++ toString (randIntn seed 1000000))
      ∧ randIntn seed 1000000 < 1000000
      ∧ fakeDryRunId entity seed ≠ "")
    ∧ (∀ (entity : String) (seed : Nat), entity ∉ knownResourceTags →
        fakeDryRunId entity seed = "dryrunid-" ++ toString (randIntn seed 1000000)) := by
  constructor
  · intro entity seed
    refine ⟨?_, Nat.mod_lt _ (by decide), fakeDryRunId_ne_empty entity seed⟩
    unfold fakeDryRunId
    repeat' split
    · exact ⟨"i-", by simp, rfl⟩
    · exact ⟨"subnet-", by simp, rfl⟩
    · exact ⟨"vpc-", by simp, rfl⟩
    · exact ⟨"vol-", by simp, rfl⟩
    · exact ⟨"sg-", by simp, rfl⟩
    · exact ⟨"igw-", by simp, rfl⟩
    · exact ⟨"dryrunid-", by simp, rfl⟩
  · intro entity seed hmem
    unfold fakeDryRunId
    simp only [knownResourceTags, List.mem_cons, List.not_mem_nil] at hmem
    push_neg at hmem
    obtain ⟨h1, h2, h3, h4, h5, h6, _⟩ := hmem
    simp [h1, h2, h3, h4, h5, h6]

/-- Witness for C7: the `tag` entity (used by the tag actions) is not a
recognized resource tag and gets the `dryrunid-` prefix; the suffix is the
seed modulo `10^6`. -/
theorem c7_fakeDryRunId_shape_witness :
    fakeDryRunId "tag" 1234567 = "dryrunid-" ++ toString (randIntn 1234567 1000000)
    ∧ randIntn 1234567 1000000 < 1000000 := by
  refine ⟨c7_fakeDryRunId_shape.2 "tag" 1234567 (by decide), ?_⟩
  exact (c7_fakeDryRunId_shape.1 "tag" 1234567).2.1

/-- Outcome of `checker.check`, together with the number of fetches the
run performed. `success n` is the nil return after the n-th fetch matched;
`fetchFailure n m` is the wrapped fetch error after the n-th fetch;
`timeoutFailure n` is the timeout error after `n` fetches. -/
inductive CheckOutcome where
  | success (fetches : Nat)
  | fetchFailure (fetches : Nat) (msg : String)
  | timeoutFailure (fetches : Nat)
deriving DecidableEq

/-- Number of poll ticks that fire strictly before the timeout: the n-th
tick of `time.After(frequency)` fires at time `n * freq`, and the timeout
timer fires at `timeout`; a tick at or past the boundary is preempted by
the timer (at an exact tie the model lets the timer win, matching the
guarantee that no fetch runs after the boundary is crossed). For
`0 < freq`, `n * freq < timeout` iff `n ≤ numTicks freq timeout` (see
`tick_fires_iff`). -/
def numTicks (freq timeout : Nat) : Nat := (timeout - 1) / freq

theorem tick_fires_iff (freq timeout n : Nat) (hf : 0 < freq) (hn : 0 < n) :
    n * freq < timeout ↔ n ≤ numTicks freq timeout := by
  unfold numTicks
  rw [Nat.le_div_iff_mul_le hf]
  have hc : n ≤ n * freq := by nlinarith
  omega

/-- The polling loop of `checker.check`: `done` fetches already happened,
`fuel` ticks remain before the timeout fires. Each tick invokes the fetch
closure; a fetch error returns the wrapped failure, a state equal to
`expect` returns success, otherwise the loop continues. -/
def checkFrom (desc : String) (fetch : Nat → Except String String)
    (expect : String) : Nat → Nat → CheckOutcome
  | done, 0 => CheckOutcome.timeoutFailure done
  | done, fuel + 1 =>
    match fetch done with
    | Except.error e =>
      CheckOutcome.fetchFailure (done + 1) ("check " ++ desc ++ ": " ++ e)
    | Except.ok got =>
      if got = expect then CheckOutcome.success (done + 1)
      else checkFrom desc fetch expect (done + 1) fuel

/-- `checker.check` from the source: the `select` loop over the
`time.After(frequency)` tick channel and the `timeout` timer,
determinized as in `numTicks`. The fetch closure is indexed by the number
of fetches already performed, so `fetch k` is the result of the `(k+1)`-th
describe call. -/
def check (desc : String) (fetch : Nat → Except String String)
    (expect : String) (freq timeout : Nat) : CheckOutcome :=
  checkFrom desc fetch expect 0 (numTicks freq timeout)

theorem checkFrom_timeout (desc : String) (fetch : Nat → Except String String)
    (expect : String) :
    ∀ (fuel done : Nat),
      (∀ k, k < fuel → ∃ st, fetch (done + k) = Except.ok st ∧ st ≠ expect) →
      checkFrom desc fetch expect done fuel = CheckOutcome.timeoutFailure (done + fuel) := by
  intro fuel
  induction fuel with
  | zero => intro done _; rfl
  | succ f ih =>
    intro done hmiss
    obtain ⟨st, hst, hne⟩ := hmiss 0 (Nat.succ_pos f)
    rw [Nat.add_zero] at hst
    unfold checkFrom
    rw [hst]
    simp only [if_neg hne]
    have := ih (done + 1) (fun k hk => by
      have h := hmiss (k + 1) (by omega)
      rwa [show done + (k + 1) = done + 1 + k by omega] at h)
    rw [this]
    congr 1
    omega

theorem checkFrom_success (desc : String) (fetch : Nat → Except String String)
    (expect : String) :
    ∀ (n fuel done : Nat), 0 < n → n ≤ fuel →
      (∀ k, k < n - 1 → ∃ st, fetch (done + k) = Except.ok st ∧ st ≠ expect) →
      fetch (done + (n - 1)) = Except.ok expect →
      checkFrom desc fetch expect done fuel = CheckOutcome.success (done + n) := by
  intro n
  induction n with
  | zero => intro fuel done h; omega
  | succ m ih =>
    intro fuel done _ hfuel hmiss hhit
    obtain ⟨fuel, rfl⟩ : ∃ f, fuel = f + 1 := ⟨fuel - 1, by omega⟩
    rcases Nat.eq_zero_or_pos m with hm | hm
    · subst hm
      simp only [Nat.add_sub_cancel, Nat.add_zero] at hhit
      unfold checkFrom
      rw [hhit]
      simp
    · obtain ⟨st, hst, hne⟩ := hmiss 0 (by omega)
      rw [Nat.add_zero] at hst
      unfold checkFrom
      rw [hst]
      simp only [if_neg hne]
      have := ih fuel (done + 1) hm (by omega)
        (fun k hk => by
          have h := hmiss (k + 1) (by omega)
          rwa [show done + (k + 1) = done + 1 + k by omega] at h)
        (by rwa [show done + 1 + (m - 1) = done + (m + 1 - 1) by omega])
      rw [this]
      congr 1
      omega

/-- Claim C4: when the error-free fetch results first hit the expected
state at the n-th tick and the timeout exceeds `n * freq`, the checker
performs exactly `n` fetches and terminates with success. -/
theorem c4_check_succeeds_after_n_fetches (desc : String)
    (fetch : Nat → Except String String) (states : Nat → String)
    (expect : String) (freq timeout n : Nat)
    (hf : 0 < freq) (hn : 0 < n)
    (hfetch : ∀ k, k < n → fetch k = Except.ok (states k))
    (hhit : states (n - 1) = expect)
    (hmiss : ∀ k, k < n - 1 → states k ≠ expect)
    (ht : n * freq < timeout) :
    check desc fetch expect freq timeout = CheckOutcome.success n := by
  unfold check
  have hfuel : n ≤ numTicks freq timeout := (tick_fires_iff freq timeout n hf hn).mp ht
  have := checkFrom_success desc fetch expect n (numTicks freq timeout) 0 hn hfuel
    (fun k hk => ⟨states k, by
      rw [Nat.zero_add]
      exact ⟨hfetch k (by omega), hmiss k hk⟩⟩)
    (by rw [Nat.zero_add, hfetch (n - 1) (by omega), hhit])
  rwa [Nat.zero_add] at this

/-- Fetch sequence used by the C4 witness: `pending`, `pending`, then
`running` forever. -/
def pendingPendingRunning : Nat → Except String String :=
  fun k => if k = 0 then Except.ok "pending"
    else if k = 1 then Except.ok "pending"
    else Except.ok "running"

/-- State sequence underlying `pendingPendingRunning`. -/
def pendingPendingRunningStates : Nat → String :=
  fun k => if k = 0 then "pending" else if k = 1 then "pending" else "running"

/-- Witness for C4: states `pending, pending, running`, expected
`running`, frequency 1, timeout 4 (> 3 * 1): success after exactly 3
fetches. -/
theorem c4_check_succeeds_after_n_fetches_witness :
    check "instance i-1" pendingPendingRunning "running" 1 4 = CheckOutcome.success 3 :=
  c4_check_succeeds_after_n_fetches "instance i-1" pendingPendingRunning
    pendingPendingRunningStates "running" 1 4 3 (by decide) (by decide)
    (fun k _ => by
      unfold pendingPendingRunning pendingPendingRunningStates
      rcases k with _ | _ | k <;> rfl)
    (by decide)
    (fun k hk => by
      interval_cases k <;> decide)
    (by decide)

/-- Fetch closure used by the C3 counterexample: every describe call
fails with a non-classified error. -/
def alwaysErrFetch : Nat → Except String String :=
  fun _ => Except.error "AccessDenied"

/-- Counterexample to C3 as stated: with a fetch closure that never
returns the expected state because every fetch errors, the checker does
not terminate with a timeout failure at the timeout; it terminates at the
first tick with a wrapped fetch failure. -/
theorem c3_counterexample :
    check "instance i-1" alwaysErrFetch "running" 1 10 =
      CheckOutcome.fetchFailure 1 "check instance i-1: AccessDenied"
    ∧ ∀ m, check "instance i-1" alwaysErrFetch "running" 1 10 ≠
        CheckOutcome.timeoutFailure m := by
  refine ⟨rfl, fun m h => ?_⟩
  rw [show check "instance i-1" alwaysErrFetch "running" 1 10 =
    CheckOutcome.fetchFailure 1 "check instance i-1: AccessDenied" from rfl] at h
  cases h

/-- Claim C3 (amended): when every fetch performed before the timeout
returns an error-free state different from the expected one, the checker
terminates with a timeout failure having performed exactly the ticks that
fire strictly before the timeout, so no fetch executes after the timeout
boundary (`numTicks freq timeout * freq < timeout`). -/
theorem c3_check_timeout_preempts_polls (desc : String)
    (fetch : Nat → Except String String) (expect : String)
    (freq timeout : Nat) (hf : 0 < freq) (ht : 0 < timeout)
    (hmiss : ∀ k, k < numTicks freq timeout →
      ∃ st, fetch k = Except.ok st ∧ st ≠ expect) :
    check desc fetch expect freq timeout =
      CheckOutcome.timeoutFailure (numTicks freq timeout)
    ∧ numTicks freq timeout * freq < timeout := by
  constructor
  · unfold check
    have := checkFrom_timeout desc fetch expect (numTicks freq timeout) 0
      (fun k hk => by rw [Nat.zero_add]; exact hmiss k hk)
    rwa [Nat.zero_add] at this
  · have hle : numTicks freq timeout * freq ≤ timeout - 1 := by
      unfold numTicks
      exact Nat.div_mul_le_self (timeout - 1) freq
    omega

/-- Fetch closure used by the C3 witness: always `pending`. -/
def alwaysPendingFetch : Nat → Except String String :=
  fun _ => Except.ok "pending"

/-- Witness for the amended C3: a fetch that always returns `pending`
with expected `running`, frequency 1 and timeout 3 times out after the 2
ticks that fire before the boundary. -/
theorem c3_check_timeout_preempts_polls_witness :
    check "instance i-1" alwaysPendingFetch "running" 1 3 =
      CheckOutcome.timeoutFailure (numTicks 1 3)
    ∧ numTicks 1 3 * 1 < 3 :=
  c3_check_timeout_preempts_polls "instance i-1" alwaysPendingFetch "running"
    1 3 (by decide) (by decide)
    (fun k _ => ⟨"pending", rfl, by decide⟩)

/-- The fields of an `ec2.Instance` that the `Check_Instance` fetch
closure reads. -/
structure Ec2Instance where
  instanceId : String
  stateName : String
deriving DecidableEq

/-- `ec2.DescribeInstancesOutput`: reservations, each holding a list of
instances. -/
structure DescribeInstancesOutput where
  reservations : List (List Ec2Instance)
deriving DecidableEq

/-- The fetch closure built by `Ec2Driver.Check_Instance`, applied to one
describe-call response. In the source, an `awserr.Error` whose code is not
`InstanceNotFound` falls through both inner `if`s to the final
`return notFoundState, nil` — only a non-`awserr` error reaches the
`else { return "", err }` branch. The redundant inner comparison is kept
to mirror the source. -/
def checkInstanceFetch (id : String)
    (resp : Except ProviderErr DescribeInstancesOutput) :
    Except String String :=
  match resp with
  | Except.error (ProviderErr.aws code _) =>
    if code = "InstanceNotFound" then Except.ok notFoundState
    else Except.ok notFoundState
  | Except.error (ProviderErr.plain msg) => Except.error msg
  | Except.ok output =>
    match output.reservations with
    | [] => Except.ok notFoundState
    | firstRes :: _ =>
      match firstRes.find? (fun inst => inst.instanceId == id) with
      | some inst => Except.ok inst.stateName
      | none => Except.ok notFoundState

/-- The fields of an `elbv2.LoadBalancer` that the `Check_Loadbalancer`
fetch closure reads. -/
structure LoadBalancer where
  loadBalancerArn : String
  stateCode : String
deriving DecidableEq

/-- `elbv2.DescribeLoadBalancersOutput`. -/
structure DescribeLoadBalancersOutput where
  loadBalancers : List LoadBalancer
deriving DecidableEq

/-- The fetch closure built by `Elbv2Driver.Check_Loadbalancer`, applied to
one describe-call response; same error structure as
`checkInstanceFetch`, with code `LoadBalancerNotFound`. -/
def checkLoadbalancerFetch (id : String)
    (resp : Except ProviderErr DescribeLoadBalancersOutput) :
    Except String String :=
  match resp with
  | Except.error (ProviderErr.aws code _) =>
    if code = "LoadBalancerNotFound" then Except.ok notFoundState
    else Except.ok notFoundState
  | Except.error (ProviderErr.plain msg) => Except.error msg
  | Except.ok output =>
    match output.loadBalancers.find? (fun lb => lb.loadBalancerArn == id) with
    | some lb => Except.ok lb.stateCode
    | none => Except.ok notFoundState

/-- Claim C1 is violated by the code: an AWS-classified fetch error whose
code is NOT the not-found code (here `AuthFailure` / `AccessDenied`) is
also turned into the synthetic `not-found` state instead of being
propagated, because the `else { return "", err }` branch only catches
non-`awserr` errors; consequently `checker.check` keeps polling and times
out instead of failing with the wrapped fetch error. Only a non-classified
error propagates. -/
theorem c1_unclassified_aws_error_swallowed :
    checkInstanceFetch "i-1" (Except.error (ProviderErr.aws "AuthFailure" "forbidden"))
      = Except.ok notFoundState
    ∧ checkLoadbalancerFetch "arn-1" (Except.error (ProviderErr.aws "AccessDenied" "forbidden"))
      = Except.ok notFoundState
    ∧ check "instance i-1"
        (fun _ => checkInstanceFetch "i-1"
          (Except.error (ProviderErr.aws "AuthFailure" "forbidden")))
        "running" 1 10 = CheckOutcome.timeoutFailure 9
    ∧ checkInstanceFetch "i-1" (Except.error (ProviderErr.plain "connection reset"))
      = Except.error "connection reset" := by
  refine ⟨rfl, rfl, ?_, rfl⟩
  decide

/-- Modelled from the spec: the string-list coercion of the parameter
binder (`setFieldWithType` with `awsstringslice`, declared outside the
embedded source file): a sequence is taken as is, a single scalar is
promoted to a one-element sequence, elements are stringified. Total on
the modelled value universe. -/
def awsStringSlice : PVal → List String
  | PVal.str s => [s]
  | PVal.int n => [toString n]
  | PVal.strList l => l

/-- Modelled from the spec: applying the binder to a missing (`nil`)
parameter value is a binder failure — the string-list coercion requires a
sequence or a scalar. -/
def setFieldStringSlice : Option PVal → Except String (List String)
  | none => Except.error "cannot bind nil value"
  | some v => Except.ok (awsStringSlice v)

/-- The common tail of the dry-run handlers that issue a simulated
provider call: a classified error whose code equals `dryRunOperation` or
ends in `notFound` is dry-run success with a fake identifier; everything
else (a classified error with another code, a generic error, or a nil
error, which fails the `awserr.Error` type assertion) is a wrapped
dry-run failure. -/
def dryRunCallResult (entity desc : String) (seed : Nat)
    (e : Option ProviderErr) : GoResult :=
  match e with
  | some (ProviderErr.aws code msg) =>
    if code == dryRunOperation || goHasSuffix code notFound then
      GoResult.ok (some (fakeDryRunId entity seed))
    else GoResult.err (desc ++ ": " ++ ProviderErr.message (ProviderErr.aws code msg))
  | some (ProviderErr.plain msg) => GoResult.err (desc ++ ": " ++ msg)
  | none => GoResult.err (desc ++ ": <nil>")

/-- The instance states accepted by `Check_Instance_DryRun`. -/
def checkInstanceStates : List String :=
  ["pending", "running", "shutting-down", "terminated", "stopping",
    "stopped", notFoundState]

/-- `Ec2Driver.Check_Instance_DryRun`. `describeInstances` is the
simulated provider call, given the bound `InstanceIds` and returning the
call error (`none` for a nil error). -/
def Check_Instance_DryRun (params : Params)
    (describeInstances : List String → Option ProviderErr) (seed : Nat) :
    GoResult :=
  match getParam params "id" with
  | none => GoResult.err "check instance: missing required params id"
  | some idv =>
    match getParam params "state" with
    | some (PVal.str state) =>
      if checkInstanceStates.contains state then
        match getParam params "timeout" with
        | none => GoResult.err "check instance: missing required params timeout"
        | some (PVal.int _) =>
          match setFieldStringSlice (some idv) with
          | Except.error e => GoResult.err e
          | Except.ok instanceIds =>
            dryRunCallResult "instance" "dry run: check instance" seed
              (describeInstances instanceIds)
        | some _ => GoResult.err "check instance: timeout param is not int"
      else GoResult.err ("check instance: invalid state " ++ state)
    | _ => GoResult.err "check instance: missing required params state"

/-- `Ec2Driver.Create_Tag_DryRun`. `createTags` is the simulated provider
call, given the bound `Resources` and the `key`/`value` tag pair (both
rendered with `fmt.Sprint`). -/
def Create_Tag_DryRun (params : Params)
    (createTags : List String → String → String → Option ProviderErr)
    (seed : Nat) : GoResult :=
  match setFieldStringSlice (getParam params "resource") with
  | Except.error e => GoResult.err e
  | Except.ok resources =>
    dryRunCallResult "tag" "dry run: create tag" seed
      (createTags resources (goSprint (getParam params "key"))
        (goSprint (getParam params "value")))

/-- `Ec2Driver.Delete_Tag_DryRun`; same structure as `Create_Tag_DryRun`
with the delete call and message. -/
def Delete_Tag_DryRun (params : Params)
    (deleteTags : List String → String → String → Option ProviderErr)
    (seed : Nat) : GoResult :=
  match setFieldStringSlice (getParam params "resource") with
  | Except.error e => GoResult.err e
  | Except.ok resources =>
    dryRunCallResult "tag" "dry run: delete tag" seed
      (deleteTags resources (goSprint (getParam params "key"))
        (goSprint (getParam params "value")))

/-- `Ec2Driver.Attach_Securitygroup_DryRun`: pure parameter validation,
no provider call occurs in the source. -/
def Attach_Securitygroup_DryRun (params : Params) : GoResult :=
  if (getParam params "id").isNone then
    GoResult.err "attach securitygroup: missing required params id"
  else if (getParam params "instance").isNone then
    GoResult.err "attach securitygroup: missing instance param"
  else GoResult.ok none

/-- `Route53Driver.Create_Record_DryRun`: pure parameter validation, no
provider call occurs in the source. -/
def Create_Record_DryRun (params : Params) : GoResult :=
  if (getParam params "zone").isNone then
    GoResult.err "create record: missing required params zone"
  else if (getParam params "name").isNone then
    GoResult.err "create record: missing required params name"
  else if (getParam params "type").isNone then
    GoResult.err "create record: missing required params type"
  else if (getParam params "value").isNone then
    GoResult.err "create record: missing required params value"
  else if (getParam params "ttl").isNone then
    GoResult.err "create record: missing required params ttl"
  else GoResult.ok none

theorem dryRunCallResult_spec (entity desc : String) (seed : Nat) :
    (∀ code msg,
      dryRunCallResult entity desc seed (some (ProviderErr.aws code msg)) =
        (if code == dryRunOperation || goHasSuffix code notFound then
          GoResult.ok (some (fakeDryRunId entity seed))
        else GoResult.err (desc ++ ": " ++ ProviderErr.message (ProviderErr.aws code msg))))
    ∧ (∀ msg, dryRunCallResult entity desc seed (some (ProviderErr.plain msg)) =
        GoResult.err (desc ++ ": " ++ msg))
    ∧ dryRunCallResult entity desc seed none = GoResult.err (desc ++ ": <nil>") :=
  ⟨fun _ _ => rfl, fun _ => rfl, rfl⟩

theorem dryRunCallResult_not_ok (entity desc : String) (seed : Nat)
    (e : Option ProviderErr)
    (h : e = none ∨ ∃ m, e = some (ProviderErr.plain m)) :
    ∀ v, dryRunCallResult entity desc seed e ≠ GoResult.ok v := by
  intro v
  rcases h with h | ⟨m, h⟩ <;> subst h <;> intro hcontra <;> cases hcontra

theorem check_instance_dryRun_err_or_call (params : Params)
    (describe : List String → Option ProviderErr) (seed : Nat) :
    (∃ m, Check_Instance_DryRun params describe seed = GoResult.err m)
    ∨ (∃ input, Check_Instance_DryRun params describe seed =
        dryRunCallResult "instance" "dry run: check instance" seed (describe input)) := by
  rcases hid : getParam params "id" with _ | idv
  · refine Or.inl ⟨"check instance: missing required params id", ?_⟩
    unfold Check_Instance_DryRun
    simp only [hid]
  · rcases hst : getParam params "state" with _ | stv
    · refine Or.inl ⟨"check instance: missing required params state", ?_⟩
      unfold Check_Instance_DryRun
      simp only [hid, hst]
    · rcases stv with st | n | l
      · by_cases hmem : checkInstanceStates.contains st = true
        · rcases hto : getParam params "timeout" with _ | tv
          · refine Or.inl ⟨"check instance: missing required params timeout", ?_⟩
            unfold Check_Instance_DryRun
            simp only [hid, hst]
            rw [if_pos hmem]
            simp only [hto]
          · rcases tv with s | t | l2
            · refine Or.inl ⟨"check instance: timeout param is not int", ?_⟩
              unfold Check_Instance_DryRun
              simp only [hid, hst]
              rw [if_pos hmem]
              simp only [hto]
            · refine Or.inr ⟨awsStringSlice idv, ?_⟩
              unfold Check_Instance_DryRun
              simp only [hid, hst]
              rw [if_pos hmem]
              simp only [hto, setFieldStringSlice]
            · refine Or.inl ⟨"check instance: timeout param is not int", ?_⟩
              unfold Check_Instance_DryRun
              simp only [hid, hst]
              rw [if_pos hmem]
              simp only [hto]
        · refine Or.inl ⟨"check instance: invalid state " ++ st, ?_⟩
          unfold Check_Instance_DryRun
          simp only [hid, hst]
          rw [if_neg hmem]
      · refine Or.inl ⟨"check instance: missing required params state", ?_⟩
        unfold Check_Instance_DryRun
        simp only [hid, hst]
      · refine Or.inl ⟨"check instance: missing required params state", ?_⟩
        unfold Check_Instance_DryRun
        simp only [hid, hst]

/-- Claim C8: in the dry-run handlers that issue a simulated provider
call, a nil provider error or a provider error that is not an
AWS-classified error never produces dry-run success: the success branch
is reachable only through a classified error with a recognized code. -/
theorem c8_dry_run_success_needs_classified_error :
    (∀ (params : Params) (describe : List String → Option ProviderErr) (seed : Nat),
      (∀ input, describe input = none ∨ ∃ m, describe input = some (ProviderErr.plain m)) →
      ∀ v, Check_Instance_DryRun params describe seed ≠ GoResult.ok v)
    ∧ (∀ (params : Params)
        (createTags : List String → String → String → Option ProviderErr) (seed : Nat),
        (∀ r k v, createTags r k v = none ∨ ∃ m, createTags r k v = some (ProviderErr.plain m)) →
        ∀ v, Create_Tag_DryRun params createTags seed ≠ GoResult.ok v)
    ∧ (∀ (params : Params)
        (deleteTags : List String → String → String → Option ProviderErr) (seed : Nat),
        (∀ r k v, deleteTags r k v = none ∨ ∃ m, deleteTags r k v = some (ProviderErr.plain m)) →
        ∀ v, Delete_Tag_DryRun params deleteTags seed ≠ GoResult.ok v) := by
  refine ⟨?_, ?_, ?_⟩
  · intro params describe seed hunclassified v
    rcases check_instance_dryRun_err_or_call params describe seed with ⟨m, hm⟩ | ⟨input, hm⟩
    · rw [hm]; intro hcontra; cases hcontra
    · rw [hm]
      exact dryRunCallResult_not_ok _ _ _ _ (hunclassified input) v
  · intro params createTags seed hunclassified v
    unfold Create_Tag_DryRun
    rcases getParam params "resource" with _ | rv
    · intro hcontra; cases hcontra
    · exact dryRunCallResult_not_ok _ _ _ _ (hunclassified _ _ _) v
  · intro params deleteTags seed hunclassified v
    unfold Delete_Tag_DryRun
    rcases getParam params "resource" with _ | rv
    · intro hcontra; cases hcontra
    · exact dryRunCallResult_not_ok _ _ _ _ (hunclassified _ _ _) v

/-- Provider oracle that always reports a nil error (used by witnesses). -/
def nilErrDescribe : List String → Option ProviderErr := fun _ => none

/-- Tag-call oracle that always reports a nil error (used by witnesses). -/
def nilErrTagsCall : List String → String → String → Option ProviderErr :=
  fun _ _ _ => none

/-- Witness for C8: with fully valid parameters and a provider call whose
error is nil, `Check_Instance_DryRun` does not return success. -/
theorem c8_dry_run_success_needs_classified_error_witness :
    Check_Instance_DryRun
      [("id", PVal.str "i-1"), ("state", PVal.str "running"), ("timeout", PVal.int 180)]
      nilErrDescribe 0 ≠ GoResult.ok (some "i-0") :=
  c8_dry_run_success_needs_classified_error.1
    [("id", PVal.str "i-1"), ("state", PVal.str "running"), ("timeout", PVal.int 180)]
    nilErrDescribe 0 (fun _ => Or.inl rfl) (some "i-0")

/-- Provider oracle returning the classified would-have-succeeded code
(used by the C2 witness). -/
def dryRunOpDescribe : List String → Option ProviderErr :=
  fun _ => some (ProviderErr.aws "DryRunOperation" "would have succeeded")

theorem check_instance_dryRun_missing_param (params : Params) (seed : Nat)
    (h : getParam params "id" = none ∨ getParam params "state" = none
      ∨ getParam params "timeout" = none) :
    ∃ m, ∀ describe, Check_Instance_DryRun params describe seed = GoResult.err m := by
  rcases hid : getParam params "id" with _ | idv
  · refine ⟨"check instance: missing required params id", fun describe => ?_⟩
    unfold Check_Instance_DryRun
    simp only [hid]
  · rcases hst : getParam params "state" with _ | stv
    · refine ⟨"check instance: missing required params state", fun describe => ?_⟩
      unfold Check_Instance_DryRun
      simp only [hid, hst]
    · rcases stv with st | n | l
      · by_cases hmem : checkInstanceStates.contains st = true
        · rcases hto : getParam params "timeout" with _ | tv
          · refine ⟨"check instance: missing required params timeout", fun describe => ?_⟩
            unfold Check_Instance_DryRun
            simp only [hid, hst]
            rw [if_pos hmem]
            simp only [hto]
          · exfalso
            rcases h with h | h | h
            · rw [hid] at h; cases h
            · rw [hst] at h; cases h
            · rw [hto] at h; cases h
        · refine ⟨"check instance: invalid state " ++ st, fun describe => ?_⟩
          unfold Check_Instance_DryRun
          simp only [hid, hst]
          rw [if_neg hmem]
      · refine ⟨"check instance: missing required params state", fun describe => ?_⟩
        unfold Check_Instance_DryRun
        simp only [hid, hst]
      · refine ⟨"check instance: missing required params state", fun describe => ?_⟩
        unfold Check_Instance_DryRun
        simp only [hid, hst]

/-- Claim C5 (amended): for the dry-run validators that perform presence
checks on their declared required parameters and each such parameter, a
missing parameter makes Validate return an error and no provider call is
issued: `Attach_Securitygroup_DryRun` (id, instance) and
`Create_Record_DryRun` (zone, name, type, value, ttl) contain no provider
call at all, and `Check_Instance_DryRun` (id, state, timeout) returns the
same error for every provider oracle when one is missing. Validators
without presence checks are exempt; see the C5 counterexample. -/
theorem c5_missing_required_param_errors :
    (∀ params : Params,
      getParam params "id" = none ∨ getParam params "instance" = none →
      ∃ m, Attach_Securitygroup_DryRun params = GoResult.err m)
    ∧ (∀ params : Params,
        getParam params "zone" = none ∨ getParam params "name" = none
          ∨ getParam params "type" = none ∨ getParam params "value" = none
          ∨ getParam params "ttl" = none →
        ∃ m, Create_Record_DryRun params = GoResult.err m)
    ∧ (∀ (params : Params) (seed : Nat),
        getParam params "id" = none ∨ getParam params "state" = none
          ∨ getParam params "timeout" = none →
        ∃ m, ∀ describe, Check_Instance_DryRun params describe seed = GoResult.err m) := by
  refine ⟨?_, ?_, fun params seed h => check_instance_dryRun_missing_param params seed h⟩
  · intro params h
    unfold Attach_Securitygroup_DryRun
    by_cases h1 : (getParam params "id").isNone = true
    · rw [if_pos h1]; exact ⟨_, rfl⟩
    · rw [if_neg h1]
      by_cases h2 : (getParam params "instance").isNone = true
      · rw [if_pos h2]; exact ⟨_, rfl⟩
      · exfalso
        simp only [Option.isNone_iff_eq_none] at h1 h2
        rcases h with h | h <;> contradiction
  · intro params h
    unfold Create_Record_DryRun
    by_cases h1 : (getParam params "zone").isNone = true
    · rw [if_pos h1]; exact ⟨_, rfl⟩
    · rw [if_neg h1]
      by_cases h2 : (getParam params "name").isNone = true
      · rw [if_pos h2]; exact ⟨_, rfl⟩
      · rw [if_neg h2]
        by_cases h3 : (getParam params "type").isNone = true
        · rw [if_pos h3]; exact ⟨_, rfl⟩
        · rw [if_neg h3]
          by_cases h4 : (getParam params "value").isNone = true
          · rw [if_pos h4]; exact ⟨_, rfl⟩
          · rw [if_neg h4]
            by_cases h5 : (getParam params "ttl").isNone = true
            · rw [if_pos h5]; exact ⟨_, rfl⟩
            · exfalso
              simp only [Option.isNone_iff_eq_none] at h1 h2 h3 h4 h5
              rcases h with h | h | h | h | h <;> contradiction

/-- Witness for C5: an empty parameter map is missing every required
parameter; all three validators reject it (for any provider oracle in the
`Check_Instance_DryRun` case). -/
theorem c5_missing_required_param_errors_witness :
    (∃ m, Attach_Securitygroup_DryRun [] = GoResult.err m)
    ∧ (∃ m, Create_Record_DryRun [] = GoResult.err m)
    ∧ (∃ m, ∀ describe, Check_Instance_DryRun [] describe 0 = GoResult.err m) :=
  ⟨c5_missing_required_param_errors.1 [] (Or.inl rfl),
    c5_missing_required_param_errors.2.1 [] (Or.inl rfl),
    c5_missing_required_param_errors.2.2 [] 0 (Or.inl rfl)⟩

/-- Environment of the key-pair creation action: the value of the
`__AWLESS_KEYS_DIR` environment variable (`os.Getenv` yields the empty
string when it is unset) and the set of paths at which `os.Stat`
succeeds. -/
structure KeypairEnv where
  keysDir : String
  existingPaths : List String
deriving DecidableEq

/-- Name of the environment variable the key-pair action reads. -/
def keysDirEnvVar : String := "__AWLESS_KEYS_DIR"

/-- Models `filepath.Join(dir, name)` for the shapes used here (path
cleaning of exotic segments is irrelevant to the claims). -/
def filepathJoin (dir name : String) : String :=
  if dir = "" then name else dir ++ "/" ++ name

/-- `Ec2Driver.Create_Keypair_DryRun`. The binder call for `name` uses the
string coercion, which is total, so the bind-error branch does not arise;
the handler then rejects an empty name, an unset keys directory, and an
existing private-key file, in that order, before returning success. -/
def Create_Keypair_DryRun (name : Option PVal) (env : KeypairEnv) : GoResult :=
  if name = some (PVal.str "") then
    GoResult.err "dry run: saving private key: empty name parameter"
  else if env.keysDir = "" then
    GoResult.err ("dry run: saving private key: empty env var " ++ keysDirEnvVar)
  else
    if env.existingPaths.contains (filepathJoin env.keysDir (goSprint name ++ ".pem")) then
      GoResult.err ("dry run: saving private key: file already exists at path: " ++
        filepathJoin env.keysDir (goSprint name ++ ".pem"))
    else GoResult.ok none

/-- `Ec2Driver.Create_Keypair`: generates a key pair (`keygen` oracle,
for `console.GenerateSSHKeyPair`), refuses to overwrite an existing
private-key file, writes the private key (`writeFileErr` oracle for
`ioutil.WriteFile`), then imports the public key (`importKeyPair`
oracle). The second component of the result lists the paths written. -/
def Create_Keypair (name : Option PVal) (env : KeypairEnv)
    (keygen : Except String (String × String))
    (writeFileErr : Option String)
    (importKeyPair : Except ProviderErr String) : GoResult × List String :=
  match keygen with
  | Except.error e => (GoResult.err ("generating key: " ++ e), [])
  | Except.ok _keys =>
    if env.existingPaths.contains (filepathJoin env.keysDir (goSprint name ++ ".pem")) then
      (GoResult.err ("saving private key: file already exists at path: " ++
        filepathJoin env.keysDir (goSprint name ++ ".pem")), [])
    else
      match writeFileErr with
      | some e => (GoResult.err ("saving private key: " ++ e), [])
      | none =>
        match importKeyPair with
        | Except.error e =>
          (GoResult.err ("create key: " ++ ProviderErr.message e),
            [filepathJoin env.keysDir (goSprint name ++ ".pem")])
        | Except.ok keyName =>
          (GoResult.ok (some keyName),
            [filepathJoin env.keysDir (goSprint name ++ ".pem")])

/-- Claim C6: the key-pair action reads its target directory from
`__AWLESS_KEYS_DIR` and fails fast when it is unset (dry run) or when the
private-key file already exists; in both the dry-run and the execute path
an existing file at the target path causes failure before anything is
written, so an existing private-key file is never overwritten. -/
theorem c6_keypair_never_overwrites (name : Option PVal) (env : KeypairEnv)
    (keygen : Except String (String × String)) (writeFileErr : Option String)
    (importKeyPair : Except ProviderErr String) :
    (env.keysDir = "" → ∃ m, Create_Keypair_DryRun name env = GoResult.err m)
    ∧ (env.existingPaths.contains
        (filepathJoin env.keysDir (goSprint name ++ ".pem")) = true →
      (∃ m, Create_Keypair_DryRun name env = GoResult.err m)
      ∧ (∃ m, (Create_Keypair name env keygen writeFileErr importKeyPair).1
          = GoResult.err m)
      ∧ (Create_Keypair name env keygen writeFileErr importKeyPair).2 = []) := by
  constructor
  · intro hdir
    unfold Create_Keypair_DryRun
    by_cases hname : name = some (PVal.str "")
    · rw [if_pos hname]; exact ⟨_, rfl⟩
    · rw [if_neg hname, if_pos hdir]; exact ⟨_, rfl⟩
  · intro hexists
    refine ⟨?_, ?_, ?_⟩
    · unfold Create_Keypair_DryRun
      by_cases hname : name = some (PVal.str "")
      · rw [if_pos hname]; exact ⟨_, rfl⟩
      · rw [if_neg hname]
        by_cases hdir : env.keysDir = ""
        · rw [if_pos hdir]; exact ⟨_, rfl⟩
        · rw [if_neg hdir, if_pos hexists]; exact ⟨_, rfl⟩
    · unfold Create_Keypair
      rcases keygen with e | keys
      · exact ⟨_, rfl⟩
      · rw [if_pos hexists]; exact ⟨_, rfl⟩
    · unfold Create_Keypair
      rcases keygen with e | keys
      · rfl
      · rw [if_pos hexists]

/-- Witness for C6: with an existing private-key file at the target path,
both paths fail and the execute path performs no write; with an unset
keys directory, the dry run fails. -/
theorem c6_keypair_never_overwrites_witness :
    (∃ m, Create_Keypair_DryRun (some (PVal.str "k")) ⟨"", []⟩ = GoResult.err m)
    ∧ (∃ m, Create_Keypair_DryRun (some (PVal.str "k")) ⟨"/keys", ["/keys/k.pem"]⟩
        = GoResult.err m)
    ∧ (Create_Keypair (some (PVal.str "k")) ⟨"/keys", ["/keys/k.pem"]⟩
        (Except.ok ("pub", "priv")) none (Except.ok "k")).2 = [] := by
  refine ⟨?_, ?_, ?_⟩
  · exact (c6_keypair_never_overwrites (some (PVal.str "k")) ⟨"", []⟩
      (Except.ok ("pub", "priv")) none (Except.ok "k")).1 rfl
  · exact ((c6_keypair_never_overwrites (some (PVal.str "k")) ⟨"/keys", ["/keys/k.pem"]⟩
      (Except.ok ("pub", "priv")) none (Except.ok "k")).2 (by decide)).1
  · exact ((c6_keypair_never_overwrites (some (PVal.str "k")) ⟨"/keys", ["/keys/k.pem"]⟩
      (Except.ok ("pub", "priv")) none (Except.ok "k")).2 (by decide)).2.2

/-- The `ec2.IpPermission` fields populated by
`buildIpPermissionsFromParams`; `ipRanges` holds the `CidrIp` values. -/
structure IpPermission where
  ipProtocol : Option String
  fromPort : Option Int
  toPort : Option Int
  ipRanges : List String
deriving DecidableEq

/-- Base-10 digit run to a number; `none` when empty or when a non-digit
occurs. -/
def digitsToNat (cs : List Char) : Option Nat :=
  if cs = [] then none
  else cs.foldl (fun acc c =>
    match acc with
    | none => none
    | some n => if c.isDigit then some (n * 10 + (c.toNat - 48)) else none) (some 0)

/-- Models `strconv.ParseInt(s, 10, 64)`: optional sign then at least one
digit (the 64-bit range check is omitted; the claims do not exercise it). -/
def goParseInt (s : String) : Except String Int :=
  match s.data with
  | '+' :: rest =>
    match digitsToNat rest with
    | some n => Except.ok (n : Int)
    | none => Except.error ("strconv.ParseInt: parsing " ++ s ++ ": invalid syntax")
  | '-' :: rest =>
    match digitsToNat rest with
    | some n => Except.ok (-(n : Int))
    | none => Except.error ("strconv.ParseInt: parsing " ++ s ++ ": invalid syntax")
  | cs =>
    match digitsToNat cs with
    | some n => Except.ok (n : Int)
    | none => Except.error ("strconv.ParseInt: parsing " ++ s ++ ": invalid syntax")

/-- Models `strings.SplitN(s, "-", 2)`: the parts before and after the
first dash (the claims only use it under a contains-dash guard). -/
def splitOnDash : List Char → List Char × List Char
  | [] => ([], [])
  | c :: rest =>
    if c = '-' then ([], rest)
    else
      let p := splitOnDash rest
      (c :: p.1, p.2)

/-- `buildIpPermissionsFromParams` from the source: validates `cidr` and
`protocol` as strings; a protocol contained in the literal `any` yields
the wildcard permission (protocol `-1`, ports `-1`, `portrange` ignored);
otherwise the `portrange` parameter is interpreted by its runtime shape
(int, `any`-containing string, dashed range, or single number; any other
shape leaves the ports unset). -/
def buildIpPermissionsFromParams (params : Params) :
    Except String (List IpPermission) :=
  match getParam params "cidr" with
  | some (PVal.str cidr) =>
    match getParam params "protocol" with
    | some (PVal.str p) =>
      if goContains "any" p then
        Except.ok [{ ipProtocol := some "-1"
                     fromPort := some (-1)
                     toPort := some (-1)
                     ipRanges := [cidr] }]
      else
        match getParam params "portrange" with
        | some (PVal.int ports) =>
          Except.ok [{ ipProtocol := some p
                       fromPort := some ports
                       toPort := some ports
                       ipRanges := [cidr] }]
        | some (PVal.str ports) =>
          if goContains ports "any" then
            Except.ok [{ ipProtocol := some p
                         fromPort := some (-1)
                         toPort := some (-1)
                         ipRanges := [cidr] }]
          else if goContains ports "-" then
            match goParseInt (String.mk (splitOnDash ports.data).1) with
            | Except.error e => Except.error e
            | Except.ok fromP =>
              match goParseInt (String.mk (splitOnDash ports.data).2) with
              | Except.error e => Except.error e
              | Except.ok toP =>
                Except.ok [{ ipProtocol := some p
                             fromPort := some fromP
                             toPort := some toP
                             ipRanges := [cidr] }]
          else
            match goParseInt ports with
            | Except.error e => Except.error e
            | Except.ok port =>
              Except.ok [{ ipProtocol := some p
                           fromPort := some port
                           toPort := some port
                           ipRanges := [cidr] }]
        | _ =>
          Except.ok [{ ipProtocol := some p
                       fromPort := none
                       toPort := none
                       ipRanges := [cidr] }]
    | _ => Except.error ("invalid protocol " ++ goSprint (getParam params "protocol"))
  | _ => Except.error ("invalid cidr " ++ goSprint (getParam params "cidr"))

theorem data_mem_any_strings (p : String)
    (h : p.data = [] ∨ p.data = ['a'] ∨ p.data = ['n'] ∨ p.data = ['y']
      ∨ p.data = ['a', 'n'] ∨ p.data = ['n', 'y'] ∨ p.data = ['a', 'n', 'y']) :
    p ∈ ["", "a", "n", "y", "an", "ny", "any"] := by
  have hiff : ∀ q : String, p = q ↔ p.data = q.data := fun _ => String.ext_iff
  simp only [List.mem_cons, List.not_mem_nil, or_false, hiff]
  rcases h with h | h | h | h | h | h | h <;> rw [h] <;> decide

theorem mem_of_goContains_any (p : String) (h : goContains "any" p = true) :
    p ∈ ["", "a", "n", "y", "an", "ny", "any"] := by
  unfold goContains at h
  rw [show ("any".data) = ['a', 'n', 'y'] from rfl] at h
  simp only [listContainsSub, Bool.or_eq_true] at h
  apply data_mem_any_strings
  rcases h with h | h | h | h
  · rw [List.isPrefixOf_iff_prefix, ← List.mem_inits] at h
    rw [show List.inits ['a', 'n', 'y'] = [[], ['a'], ['a', 'n'], ['a', 'n', 'y']]
      from by decide] at h
    simp only [List.mem_cons, List.not_mem_nil, or_false] at h
    rcases h with h | h | h | h <;> simp [h]
  · rw [List.isPrefixOf_iff_prefix, ← List.mem_inits] at h
    rw [show List.inits ['n', 'y'] = [[], ['n'], ['n', 'y']] from by decide] at h
    simp only [List.mem_cons, List.not_mem_nil, or_false] at h
    rcases h with h | h | h <;> simp [h]
  · rw [List.isPrefixOf_iff_prefix, ← List.mem_inits] at h
    rw [show List.inits ['y'] = [[], ['y']] from by decide] at h
    simp only [List.mem_cons, List.not_mem_nil, or_false] at h
    rcases h with h | h <;> simp [h]
  · rw [List.isPrefixOf_iff_prefix, List.prefix_nil] at h
    simp [h]

/-- Claim C9: whenever the `protocol` parameter is a string contained in
the literal `any` (so one of the seven substrings of `any`), the built
permission is the wildcard (`IpProtocol` `-1`, ports `-1`) and the
`portrange` parameter is ignored. -/
theorem c9_any_protocol_wildcard (params : Params) (cidr p : String)
    (hc : getParam params "cidr" = some (PVal.str cidr))
    (hp : getParam params "protocol" = some (PVal.str p))
    (hany : goContains "any" p = true) :
    buildIpPermissionsFromParams params =
      Except.ok [{ ipProtocol := some "-1"
                   fromPort := some (-1)
                   toPort := some (-1)
                   ipRanges := [cidr] }]
    ∧ p ∈ ["", "a", "n", "y", "an", "ny", "any"] := by
  constructor
  · unfold buildIpPermissionsFromParams
    simp only [hc, hp]
    rw [if_pos hany]
  · exact mem_of_goContains_any p hany

/-- Witness for C9: protocol `any` with an explicit `portrange` yields the
wildcard permission and the portrange is ignored. -/
theorem c9_any_protocol_wildcard_witness :
    buildIpPermissionsFromParams
      [("cidr", PVal.str "10.0.0.0/16"), ("protocol", PVal.str "any"),
        ("portrange", PVal.int 80)] =
      Except.ok [{ ipProtocol := some "-1"
                   fromPort := some (-1)
                   toPort := some (-1)
                   ipRanges := ["10.0.0.0/16"] }]
    ∧ ("any" : String) ∈ ["", "a", "n", "y", "an", "ny", "any"] :=
  c9_any_protocol_wildcard
    [("cidr", PVal.str "10.0.0.0/16"), ("protocol", PVal.str "any"),
      ("portrange", PVal.int 80)]
    "10.0.0.0/16" "any" rfl rfl (by decide)

/-- Modelled from the spec: the string coercion of the parameter binder
(`setFieldWithType` with `awsstr`, declared outside the embedded source
file): the value is stringified and written, so it is total on the
modelled value universe. -/
def awsStr (v : Option PVal) : String := goSprint v

/-- Does a provider error carry a classified code that the dry-run
handlers recognize: equal to `dryRunOperation` or ending in `notFound`.
A non-classified (plain) error is never recognized. -/
def recognizedCode : ProviderErr → Bool
  | ProviderErr.aws code _ => code == dryRunOperation || goHasSuffix code notFound
  | ProviderErr.plain _ => false

theorem dryRunCallResult_some (entity desc : String) (seed : Nat)
    (e : ProviderErr) :
    dryRunCallResult entity desc seed (some e) =
      (if recognizedCode e then GoResult.ok (some (fakeDryRunId entity seed))
       else GoResult.err (desc ++ ": " ++ ProviderErr.message e)) := by
  cases e with
  | aws code msg => rfl
  | plain msg => rfl

/-- One of the four securitygroup-update request shapes chosen by
`Update_Securitygroup_DryRun` (ingress/egress crossed with
authorize/revoke), with the `DryRun` flag, the bound `GroupId` and the
permissions. -/
structure UpdateSecuritygroupInput where
  egress : Bool
  revoke : Bool
  dryRun : Bool
  groupId : String
  ipPermissions : List IpPermission
deriving DecidableEq

/-- The input-selection steps of `Update_Securitygroup_DryRun`: the
`inbound` parameter is examined first, then `outbound` (overriding it);
each accepts `authorize` or `revoke` as a string and rejects any other
string; a non-string parameter is skipped (a failed type assertion in the
source). `none` means neither direction was selected; the pair is
(egress, revoke). -/
def updateSgSelect (params : Params) : Except String (Option (Bool × Bool)) :=
  match
    (match getParam params "inbound" with
      | some (PVal.str "authorize") => Except.ok (some ((false : Bool), (false : Bool)))
      | some (PVal.str "revoke") => Except.ok (some ((false : Bool), (true : Bool)))
      | some (PVal.str action) =>
        Except.error ("inbound parameter expect authorize or revoke, got " ++ action)
      | _ => Except.ok none : Except String (Option (Bool × Bool))) with
  | Except.error e => Except.error e
  | Except.ok sel =>
    match getParam params "outbound" with
    | some (PVal.str "authorize") => Except.ok (some (true, false))
    | some (PVal.str "revoke") => Except.ok (some (true, true))
    | some (PVal.str action) =>
      Except.error ("outbound parameter expect authorize or revoke, got " ++ action)
    | _ => Except.ok sel

/-- `Ec2Driver.Update_Securitygroup_DryRun`: builds the permissions,
selects the request shape from `inbound`/`outbound`, binds `GroupId`,
issues the simulated call (`callSg` oracle), and interprets the error as
the source does — a recognized classified code returns `(nil, nil)`
(success with a nil identifier, no fake id), anything else is a wrapped
failure. -/
def Update_Securitygroup_DryRun (params : Params)
    (callSg : UpdateSecuritygroupInput → Option ProviderErr) : GoResult :=
  match buildIpPermissionsFromParams params with
  | Except.error e => GoResult.err e
  | Except.ok ipPerms =>
    match updateSgSelect params with
    | Except.error e => GoResult.err e
    | Except.ok none => GoResult.err "expect either inbound or outbound parameter"
    | Except.ok (some dir) =>
      match callSg { egress := dir.1
                     revoke := dir.2
                     dryRun := true
                     groupId := awsStr (getParam params "id")
                     ipPermissions := ipPerms } with
      | some (ProviderErr.aws code msg) =>
        if code == dryRunOperation || goHasSuffix code notFound then
          GoResult.ok none
        else
          GoResult.err ("dry run: update securitygroup: " ++
            ProviderErr.message (ProviderErr.aws code msg))
      | some (ProviderErr.plain msg) =>
        GoResult.err ("dry run: update securitygroup: " ++ msg)
      | none => GoResult.err "dry run: update securitygroup: <nil>"

/-- Securitygroup-update parameter map used by the C2 counterexample and
witness. -/
def demoSgParams : Params :=
  [("cidr", PVal.str "0.0.0.0/0"), ("protocol", PVal.str "tcp"),
    ("portrange", PVal.int 22), ("inbound", PVal.str "authorize"),
    ("id", PVal.str "sg-1")]

/-- Securitygroup-update oracle reporting the classified
would-have-succeeded code. -/
def dryRunOpSgCall : UpdateSecuritygroupInput → Option ProviderErr :=
  fun _ => some (ProviderErr.aws dryRunOperation "would have succeeded")

/-- Counterexample to C2 as stated: `Update_Securitygroup_DryRun` is a
dry-run action that issues a simulated provider call, yet on the
recognized classified code it returns `(nil, nil)` — dry-run success with
a nil identifier, never a non-nil fake identifier. -/
theorem c2_counterexample_nil_identifier :
    Update_Securitygroup_DryRun demoSgParams dryRunOpSgCall = GoResult.ok none
    ∧ ∀ id, Update_Securitygroup_DryRun demoSgParams dryRunOpSgCall ≠
        GoResult.ok (some id) := by
  have heq : Update_Securitygroup_DryRun demoSgParams dryRunOpSgCall
      = GoResult.ok none := by decide
  refine ⟨heq, ?_⟩
  intro id h
  rw [heq] at h
  simp at h

/-- Claim C2 (amended): in every dry-run handler that issues a simulated
provider call, a provider error whose classified code equals the dry-run
operation code or ends in the not-found code yields dry-run success —
with a non-nil fake identifier in `Check_Instance_DryRun`,
`Create_Tag_DryRun` and `Delete_Tag_DryRun`, and with a nil result in
`Update_Securitygroup_DryRun` — while any other provider error (a
classified error with an unrecognized code or a non-classified error)
yields a failure wrapping that error. -/
theorem c2_dry_run_error_classification :
    (∀ (params : Params) (describe : List String → Option ProviderErr)
      (seed : Nat) (idv : PVal) (st : String) (t : Int) (e : ProviderErr),
      getParam params "id" = some idv →
      getParam params "state" = some (PVal.str st) →
      checkInstanceStates.contains st = true →
      getParam params "timeout" = some (PVal.int t) →
      describe (awsStringSlice idv) = some e →
      Check_Instance_DryRun params describe seed =
        (if recognizedCode e then GoResult.ok (some (fakeDryRunId "instance" seed))
         else GoResult.err ("dry run: check instance: " ++ ProviderErr.message e))
      ∧ fakeDryRunId "instance" seed ≠ "")
    ∧ (∀ (params : Params)
        (createTags : List String → String → String → Option ProviderErr)
        (seed : Nat) (rv : PVal) (e : ProviderErr),
        getParam params "resource" = some rv →
        createTags (awsStringSlice rv) (goSprint (getParam params "key"))
          (goSprint (getParam params "value")) = some e →
        Create_Tag_DryRun params createTags seed =
          (if recognizedCode e then GoResult.ok (some (fakeDryRunId "tag" seed))
           else GoResult.err ("dry run: create tag: " ++ ProviderErr.message e))
        ∧ fakeDryRunId "tag" seed ≠ "")
    ∧ (∀ (params : Params)
        (deleteTags : List String → String → String → Option ProviderErr)
        (seed : Nat) (rv : PVal) (e : ProviderErr),
        getParam params "resource" = some rv →
        deleteTags (awsStringSlice rv) (goSprint (getParam params "key"))
          (goSprint (getParam params "value")) = some e →
        Delete_Tag_DryRun params deleteTags seed =
          (if recognizedCode e then GoResult.ok (some (fakeDryRunId "tag" seed))
           else GoResult.err ("dry run: delete tag: " ++ ProviderErr.message e))
        ∧ fakeDryRunId "tag" seed ≠ "")
    ∧ (∀ (params : Params) (callSg : UpdateSecuritygroupInput → Option ProviderErr)
        (ipPerms : List IpPermission) (dir : Bool × Bool) (e : ProviderErr),
        buildIpPermissionsFromParams params = Except.ok ipPerms →
        updateSgSelect params = Except.ok (some dir) →
        callSg { egress := dir.1
                 revoke := dir.2
                 dryRun := true
                 groupId := awsStr (getParam params "id")
                 ipPermissions := ipPerms } = some e →
        Update_Securitygroup_DryRun params callSg =
          (if recognizedCode e then GoResult.ok none
           else GoResult.err ("dry run: update securitygroup: " ++
             ProviderErr.message e))) := by
  refine ⟨?_, ?_, ?_, ?_⟩
  · intro params describe seed idv st t e hid hst hmem hto hcall
    refine ⟨?_, fakeDryRunId_ne_empty _ _⟩
    unfold Check_Instance_DryRun
    simp only [hid, hst]
    rw [if_pos hmem]
    simp only [hto, setFieldStringSlice]
    rw [hcall]
    exact dryRunCallResult_some "instance" "dry run: check instance" seed e
  · intro params createTags seed rv e hr hcall
    refine ⟨?_, fakeDryRunId_ne_empty _ _⟩
    unfold Create_Tag_DryRun
    simp only [hr, setFieldStringSlice]
    rw [hcall]
    exact dryRunCallResult_some "tag" "dry run: create tag" seed e
  · intro params deleteTags seed rv e hr hcall
    refine ⟨?_, fakeDryRunId_ne_empty _ _⟩
    unfold Delete_Tag_DryRun
    simp only [hr, setFieldStringSlice]
    rw [hcall]
    exact dryRunCallResult_some "tag" "dry run: delete tag" seed e
  · intro params callSg ipPerms dir e hbuild hsel hcall
    unfold Update_Securitygroup_DryRun
    simp only [hbuild, hsel]
    rw [hcall]
    cases e with
    | aws code msg => rfl
    | plain msg => rfl

/-- Witness for the amended C2: on the recognized classified code,
`Check_Instance_DryRun` returns a non-empty fake identifier while
`Update_Securitygroup_DryRun` returns nil success. -/
theorem c2_dry_run_error_classification_witness :
    Check_Instance_DryRun
      [("id", PVal.str "i-1"), ("state", PVal.str "running"), ("timeout", PVal.int 180)]
      dryRunOpDescribe 7 = GoResult.ok (some (fakeDryRunId "instance" 7))
    ∧ fakeDryRunId "instance" 7 ≠ ""
    ∧ Update_Securitygroup_DryRun demoSgParams dryRunOpSgCall = GoResult.ok none := by
  have h1 := c2_dry_run_error_classification.1
    [("id", PVal.str "i-1"), ("state", PVal.str "running"), ("timeout", PVal.int 180)]
    dryRunOpDescribe 7 (PVal.str "i-1") "running" 180
    (ProviderErr.aws dryRunOperation "would have succeeded")
    rfl rfl (by decide) rfl rfl
  have h4 := c2_dry_run_error_classification.2.2.2 demoSgParams dryRunOpSgCall
    [{ ipProtocol := some "tcp"
       fromPort := some 22
       toPort := some 22
       ipRanges := ["0.0.0.0/0"] }]
    (false, false) (ProviderErr.aws dryRunOperation "would have succeeded")
    rfl rfl rfl
  refine ⟨?_, h1.2, ?_⟩
  · rw [h1.1]
    decide
  · rw [h4]
    decide

/-- Tag-call oracle reporting the classified would-have-succeeded code. -/
def dryRunOpTagsCall : List String → String → String → Option ProviderErr :=
  fun _ _ _ => some (ProviderErr.aws dryRunOperation "would have succeeded")

/-- Tag-call oracle reporting a generic (non-classified) provider
error. -/
def plainErrTagsCall : List String → String → String → Option ProviderErr :=
  fun _ _ _ => some (ProviderErr.plain "boom")

/-- Counterexample to C5 as stated: `Create_Tag_DryRun` performs no
presence check, so with its required `key` and `value` parameters missing
from the map it still issues the simulated CreateTags call — the outcome
follows the provider response (success on the recognized code, a
non-parameter failure on another error) — instead of returning a
parameter error and issuing no call; and `Create_Keypair_DryRun` with its
required `name` parameter missing returns success outright. -/
theorem c5_counterexample_no_presence_check :
    Create_Tag_DryRun [("resource", PVal.str "vol-1")] dryRunOpTagsCall 3
      = GoResult.ok (some (fakeDryRunId "tag" 3))
    ∧ Create_Tag_DryRun [("resource", PVal.str "vol-1")] plainErrTagsCall 3
      = GoResult.err "dry run: create tag: boom"
    ∧ Create_Keypair_DryRun none ⟨"/keys", []⟩ = GoResult.ok none := by
  refine ⟨by decide, by decide, by decide⟩

end Awless
